import Mathlib

/-!
Shallow embedding of the quality-assessment and image post-processing pipeline
of the PDF2HTML repository (files `documents/utils/document_processor.py` and
`documents/utils/image_processor.py`), together with theorems settling the
frozen claims about it.

Modelling conventions:
* Python strings are modelled as `List Char` (one entry per code point, so
  `len` is `List.length` and `ord` is `Char.toNat`).
* Python floats are modelled as `ℚ`; the arithmetic that the claims touch is
  exact on small rationals, where float and rational arithmetic agree.
* Python dicts with a fixed shape become structures; `dict.get(k, d)` on an
  optional field becomes `Option.getD`; a dict value that may be absent or
  `None` becomes an `Option`.
* The structured `details` maps attached to diagnostics are modelled as
  association lists `List (String × Option ℚ)` (every value the code ever
  stores there is an integer, a rational ratio, or `None`).
* Methods that only append diagnostic records to
  `self.extraction_metrics[\x27errors\x27]` are modelled as pure functions
  returning the list of records they emit, paired with their return value.
-/

/-- One entry of `extraction_metrics[\x27errors\x27]`, as built by
`DocumentProcessor.log_extraction_error`. -/
structure ErrorRecord where
  error_type : String
  severity : String
  message : String
  details : Option (List (String × Option ℚ))
  page_number : Nat
  element_type : Option String
  suggested_fix : String
deriving DecidableEq

/-- `DocumentProcessor.apply_automatic_corrections`: the fixed
error-type → remediation-list table.  The `details` argument is accepted and
ignored, exactly as in the source. -/
def apply_automatic_corrections (error_type : String)
    (_details : Option (List (String × Option ℚ))) : List String :=
  if error_type = "encoding" then
    ["Ré-encoder le document avec UTF-8",
     "Utiliser un OCR avec détection automatique d\u0027encodage",
     "Convertir le document en PDF avant extraction"]
  else if error_type = "image_extraction" then
    ["Augmenter la résolution DPI pour l\u0027extraction",
     "Utiliser un algorithme d\u0027amélioration d\u0027image",
     "Convertir les images en format standard (PNG/JPEG)"]
  else if error_type = "table_parsing" then
    ["Appliquer un pré-traitement de détection de bordures",
     "Utiliser un algorithme spécialisé pour tableaux complexes",
     "Convertir en format avec grille structurée"]
  else if error_type = "text_ocr" then
    ["Appliquer un filtre de débruitage d\u0027image",
     "Utiliser un modèle OCR plus avancé",
     "Améliorer la résolution du document source"]
  else if error_type = "layout_analysis" then
    ["Appliquer une détection automatique de colonnes",
     "Utiliser un algorithme de segmentation de page",
     "Ré-analyser avec détection de zones de texte"]
  else if error_type = "font_detection" then
    ["Normaliser les polices vers des équivalents standard",
     "Utiliser une bibliothèque de substitution de polices",
     "Convertir en format texte uniforme"]
  else
    ["Retraiter le document avec des paramètres optimisés",
     "Utiliser un processeur alternatif",
     "Vérifier l\u0027intégrité du fichier source"]

/-- `DocumentProcessor.log_extraction_error`.  `current_page_number` is the
value of `getattr(self, \x27current_page_number\x27, 1)`; the attribute is
never assigned anywhere in the repository, so every call in this file passes
the default `1`.  When `suggested_fix` is `none` the record receives the
first two entries of the remediation table joined by `"; "`. -/
def log_extraction_error (current_page_number : Nat) (error_type : String)
    (severity : String) (message : String)
    (details : Option (List (String × Option ℚ))) (page_number : Option Nat)
    (element_type : Option String) (suggested_fix : Option String) :
    ErrorRecord :=
  { error_type := error_type
    severity := severity
    message := message
    details := details
    page_number := page_number.getD current_page_number
    element_type := element_type
    suggested_fix := suggested_fix.getD
      (String.intercalate "; "
        (List.take 2 (apply_automatic_corrections error_type details))) }

/-- The `current_page_number` attribute is never set in the repository, so
`getattr(self, \x27current_page_number\x27, 1)` always yields 1. -/
def current_page_number_default : Nat := 1

/-- The mutable accumulator `self.extraction_metrics`. -/
structure ExtractionMetrics where
  total_elements_detected : Nat
  total_elements_extracted : Nat
  text_quality : ℚ
  image_quality : ℚ
  table_quality : ℚ
  errors : List ErrorRecord
deriving DecidableEq

/-- The accumulator as initialised in `DocumentProcessor.__init__`. -/
def fresh_metrics : ExtractionMetrics :=
  { total_elements_detected := 0
    total_elements_extracted := 0
    text_quality := 0
    image_quality := 0
    table_quality := 0
    errors := [] }

/-- The `precision` local variable of
`DocumentProcessor.save_extraction_metrics`:
`extracted / detected * 100` when `detected > 0`, else `100`. -/
def compute_precision (m : ExtractionMetrics) : ℚ :=
  if 0 < m.total_elements_detected then
    (m.total_elements_extracted : ℚ) / (m.total_elements_detected : ℚ) * 100
  else
    100

/-- Round-half-to-even on rationals, the rounding rule of Python 3
`round`. -/
def round_half_even (q : ℚ) : ℤ :=
  if q - (⌊q⌋ : ℚ) < 1 / 2 then ⌊q⌋
  else if 1 / 2 < q - (⌊q⌋ : ℚ) then ⌊q⌋ + 1
  else if ⌊q⌋ % 2 = 0 then ⌊q⌋ else ⌊q⌋ + 1

/-- Python `round(x, 2)`, modelled exactly on rationals. -/
def py_round2 (q : ℚ) : ℚ := (round_half_even (q * 100) : ℚ) / 100

/-- The value stored into `document.extraction_precision` by
`save_extraction_metrics`: the precision, rounded to two decimals. -/
def save_extraction_metrics_precision (m : ExtractionMetrics) : ℚ :=
  py_round2 (compute_precision m)

/-- Metrics accumulator holding only the two counters (the quality fields and
error list do not influence the precision). -/
def mkCounters (detected extracted : Nat) : ExtractionMetrics :=
  { total_elements_detected := detected
    total_elements_extracted := extracted
    text_quality := 0
    image_quality := 0
    table_quality := 0
    errors := [] }

/-- C1: finalizing metrics computes precision as `extracted/detected × 100`
when `total_elements_detected > 0` and as `100` when it is `0`; with
detected = 10 and extracted = 7 the stored value is exactly 70.0, and with
detected = 0 it is 100. -/
theorem C1_finalize_precision :
    (∀ m : ExtractionMetrics, 0 < m.total_elements_detected →
      compute_precision m =
        (m.total_elements_extracted : ℚ) / (m.total_elements_detected : ℚ) * 100) ∧
    (∀ m : ExtractionMetrics, m.total_elements_detected = 0 →
      compute_precision m = 100) ∧
    save_extraction_metrics_precision (mkCounters 10 7) = 70 ∧
    save_extraction_metrics_precision (mkCounters 0 0) = 100 := by
  refine ⟨?_, ?_, ?_, ?_⟩
  · intro m hm
    simp [compute_precision, hm]
  · intro m hm
    simp [compute_precision, hm]
  · norm_num [save_extraction_metrics_precision, py_round2, round_half_even,
      compute_precision, mkCounters]
  · norm_num [save_extraction_metrics_precision, py_round2, round_half_even,
      compute_precision, mkCounters]

/-- Witness for C1: the detected = 10, extracted = 7 accumulator satisfies the
hypothesis of the first conjunct, and the formula evaluates to 70. -/
theorem C1_finalize_precision_witness :
    compute_precision (mkCounters 10 7) = (7 : ℚ) / 10 * 100 :=
  C1_finalize_precision.1 (mkCounters 10 7) (by decide)

/-- The corrupted-character test of `calculate_text_quality`:
`ord(c) > 65535 or c in` the marker string U+FFFD U+FFFD U+25A1 `?`. -/
def is_corrupted_char (c : Char) : Bool :=
  65535 < c.toNat || c = Char.ofNat 0xFFFD || c = Char.ofNat 0x25A1 || c = '?'

/-- `len([c for c in extracted_text if ...])` of `calculate_text_quality`. -/
def corrupted_count (text : List Char) : Nat :=
  (text.filter is_corrupted_char).length

/-- Python `str.split(sep)` for a one-character separator, on code-point
lists: keeps empty pieces and returns `[""]` on the empty string. -/
def splitOnChar (sep : Char) : List Char → List (List Char)
  | [] => [[]]
  | c :: rest =>
    match splitOnChar sep rest with
    | [] => [[]]
    | l :: ls => if c = sep then [] :: l :: ls else (c :: l) :: ls

/-- `extracted_text.split(\x27\n\x27)`. -/
def text_lines (text : List Char) : List (List Char) := splitOnChar '\n' text

/-- `len([line for line in lines if not line.strip()])`: a line is blank when
every code point is whitespace.  (Python `str.strip` removes the Unicode
whitespace class; the texts this repository scores only contain the ASCII
whitespace that `Char.isWhitespace` covers.) -/
def empty_line_count (lines : List (List Char)) : Nat :=
  (lines.filter (fun line => line.all (fun c => c.isWhitespace))).length

/-- `DocumentProcessor.calculate_text_quality`, returning the score together
with the diagnostic records it appends. -/
def calculate_text_quality (extracted_text : List Char)
    (expected_length : Option Nat) : ℚ × List ErrorRecord :=
  if extracted_text = [] then (0, [])
  else
    let total := extracted_text.length
    let corrupted_chars := corrupted_count extracted_text
    let score1 : ℚ :=
      if 0 < corrupted_count extracted_text then
        100 - min 50 ((corrupted_count extracted_text : ℚ) /
          (extracted_text.length : ℚ) * 100)
      else 100
    let errs1 : List ErrorRecord :=
      if 0 < corrupted_count extracted_text ∧
          10 < min 50 ((corrupted_count extracted_text : ℚ) /
            (extracted_text.length : ℚ) * 100) then
        [log_extraction_error current_page_number_default "encoding" "medium"
          ("Détection de " ++ toString corrupted_chars ++ " caractères corrompus")
          (some [("corrupted_chars", some (corrupted_chars : ℚ)),
                 ("total_chars", some (total : ℚ))])
          none none (some "Vérifier l\u0027encodage du document source")]
      else []
    let score2 : ℚ :=
      if (empty_line_count (text_lines extracted_text) : ℚ) /
          ((text_lines extracted_text).length : ℚ) > 1 / 2 then
        score1 - 20
      else score1
    let errs2 : List ErrorRecord :=
      if (empty_line_count (text_lines extracted_text) : ℚ) /
          ((text_lines extracted_text).length : ℚ) > 1 / 2 then
        [log_extraction_error current_page_number_default "layout_analysis" "low"
          "Beaucoup de lignes vides détectées"
          (some [("empty_lines_ratio",
                  some ((empty_line_count (text_lines extracted_text) : ℚ) /
                    ((text_lines extracted_text).length : ℚ)))])
          none none (some "Le document pourrait nécessiter un OCR plus précis")]
      else []
    let lenblock : ℚ × List ErrorRecord :=
      match expected_length with
      | some el =>
        if el ≠ 0 ∧ |(total : ℚ) - (el : ℚ)| / (el : ℚ) > 3 / 10 then
          (15, [log_extraction_error current_page_number_default "text_ocr" "medium"
            "Différence significative avec la longueur attendue"
            (some [("extracted_length", some (total : ℚ)),
                   ("expected_length", some (el : ℚ))])
            none none none])
        else (0, [])
      | none => (0, [])
    (max 0 (score2 - lenblock.1), errs1 ++ errs2 ++ lenblock.2)

/-- The corruption penalty that `calculate_text_quality` subtracts
(`min(50, corrupted/total × 100)` when any corrupted character is present). -/
def corruptionPenaltyQ (t : List Char) : ℚ :=
  if 0 < corrupted_count t then
    min 50 ((corrupted_count t : ℚ) / (t.length : ℚ) * 100)
  else 0

/-- The blank-line penalty that `calculate_text_quality` subtracts. -/
def blankPenaltyQ (t : List Char) : ℚ :=
  if (empty_line_count (text_lines t) : ℚ) /
      ((text_lines t).length : ℚ) > 1 / 2 then 20
  else 0

/-- The expected-length penalty that `calculate_text_quality` subtracts. -/
def lengthPenaltyQ (total : Nat) (expected_length : Option Nat) : ℚ :=
  match expected_length with
  | some el => if el ≠ 0 ∧ |(total : ℚ) - (el : ℚ)| / (el : ℚ) > 3 / 10 then 15 else 0
  | none => 0

/-- The corrupted-character ratio of a text. -/
def corruptionRatio (t : List Char) : ℚ :=
  (corrupted_count t : ℚ) / (t.length : ℚ)

lemma text_quality_fst_eq (t : List Char) (e : Option Nat) (ht : t ≠ []) :
    (calculate_text_quality t e).1 =
      max 0 (100 - corruptionPenaltyQ t - blankPenaltyQ t -
        lengthPenaltyQ t.length e) := by
  unfold calculate_text_quality corruptionPenaltyQ blankPenaltyQ lengthPenaltyQ
  rcases e with _ | el <;>
    simp only [if_neg ht] <;>
    split_ifs <;>
    ring_nf

lemma corruptionPenaltyQ_nonneg (t : List Char) : 0 ≤ corruptionPenaltyQ t := by
  unfold corruptionPenaltyQ
  split_ifs with h
  · exact le_min (by norm_num) (by positivity)
  · exact le_refl 0

lemma blankPenaltyQ_nonneg (t : List Char) : 0 ≤ blankPenaltyQ t := by
  unfold blankPenaltyQ
  split_ifs <;> norm_num

lemma lengthPenaltyQ_nonneg (total : Nat) (e : Option Nat) :
    0 ≤ lengthPenaltyQ total e := by
  rcases e with _ | el
  · simp [lengthPenaltyQ]
  · simp only [lengthPenaltyQ]
    split_ifs <;> norm_num

/-- C2: every text scores in [0,100], and the empty text scores exactly 0
with no diagnostic emitted. -/
theorem C2_text_quality_range :
    (∀ (t : List Char) (e : Option Nat),
      0 ≤ (calculate_text_quality t e).1 ∧ (calculate_text_quality t e).1 ≤ 100) ∧
    (∀ e : Option Nat, calculate_text_quality [] e = (0, [])) := by
  constructor
  · intro t e
    by_cases ht : t = []
    · subst ht
      simp [calculate_text_quality]
    · rw [text_quality_fst_eq t e ht]
      refine ⟨le_max_left _ _, ?_⟩
      have h1 := corruptionPenaltyQ_nonneg t
      have h2 := blankPenaltyQ_nonneg t
      have h3 := lengthPenaltyQ_nonneg t.length e
      exact max_le (by norm_num) (by linarith)
  · intro e
    simp [calculate_text_quality]

lemma corruptionPenaltyQ_mono (t1 t2 : List Char)
    (h : corruptionRatio t1 ≤ corruptionRatio t2) :
    corruptionPenaltyQ t1 ≤ corruptionPenaltyQ t2 := by
  by_cases h1 : 0 < corrupted_count t1
  · have hlen1 : 0 < t1.length := by
      rcases t1 with _ | ⟨c, rest⟩
      · simp [corrupted_count] at h1
      · simp
    have hr1 : 0 < corruptionRatio t1 := by
      unfold corruptionRatio
      exact div_pos (by exact_mod_cast h1) (by exact_mod_cast hlen1)
    have h2 : 0 < corrupted_count t2 := by
      by_contra hc
      have hc2 : corrupted_count t2 = 0 := by omega
      have hr2 : corruptionRatio t2 = 0 := by simp [corruptionRatio, hc2]
      rw [hr2] at h
      linarith
    unfold corruptionPenaltyQ
    rw [if_pos h1, if_pos h2]
    have := mul_le_mul_of_nonneg_right h (by norm_num : (0:ℚ) ≤ 100)
    unfold corruptionRatio at this
    exact min_le_min le_rfl this
  · have hz : corruptionPenaltyQ t1 = 0 := by
      unfold corruptionPenaltyQ
      rw [if_neg h1]
    rw [hz]
    exact corruptionPenaltyQ_nonneg t2

/-- C3 (amended): with length fixed and the blank-line penalty agreeing on the
two texts, a higher corrupted-character ratio never yields a higher text
quality score. -/
theorem C3_corruption_monotonic_amended :
    ∀ (t1 t2 : List Char) (e : Option Nat),
      t1 ≠ [] → t2 ≠ [] → t1.length = t2.length →
      blankPenaltyQ t1 = blankPenaltyQ t2 →
      corruptionRatio t1 ≤ corruptionRatio t2 →
      (calculate_text_quality t2 e).1 ≤ (calculate_text_quality t1 e).1 := by
  intro t1 t2 e h1 h2 hlen hblank hratio
  rw [text_quality_fst_eq t1 e h1, text_quality_fst_eq t2 e h2]
  have hcp := corruptionPenaltyQ_mono t1 t2 hratio
  rw [hblank, hlen]
  exact max_le_max le_rfl (by linarith)

/-- Counterexample to C3 as stated: the four-character texts `"\n\n\na"` and
`"abcd"` have equal length and equal corrupted-character ratios (both 0), yet
the second scores 100 and the first only 80, because the blank-line penalty
fires on the first text alone. -/
theorem C3_corruption_monotonic_counterexample :
    "\n\n\na".data ≠ ([] : List Char) ∧
    "abcd".data ≠ ([] : List Char) ∧
    ("\n\n\na".data).length = ("abcd".data).length ∧
    corruptionRatio "\n\n\na".data ≤ corruptionRatio "abcd".data ∧
    ¬ ((calculate_text_quality "abcd".data none).1 ≤
        (calculate_text_quality "\n\n\na".data none).1) := by
  have hc1 : corrupted_count "\n\n\na".data = 0 := by rfl
  have hc2 : corrupted_count "abcd".data = 0 := by rfl
  have hl1 : text_lines "\n\n\na".data = [[], [], [], ['a']] := by rfl
  have hl2 : text_lines "abcd".data = [['a', 'b', 'c', 'd']] := by rfl
  refine ⟨by decide, by decide, by decide, ?_, ?_⟩
  · unfold corruptionRatio
    rw [hc1, hc2]
    norm_num
  · rw [text_quality_fst_eq _ _ (by decide), text_quality_fst_eq _ _ (by decide)]
    unfold corruptionPenaltyQ blankPenaltyQ lengthPenaltyQ
    rw [hc1, hc2, hl1, hl2]
    have he1 : empty_line_count [([] : List Char), [], [], ['a']] = 3 := by rfl
    have he2 : empty_line_count [['a', 'b', 'c', 'd']] = 0 := by rfl
    rw [he1, he2]
    norm_num [max_def]

/-- Witness for the amended C3 at concrete texts: `"ab??"` has a larger
corrupted ratio than `"abc?"` (2/4 against 1/4), lengths agree, the blank-line
penalty applies to neither, and the score of `"ab??"` is indeed not larger. -/
theorem C3_corruption_monotonic_witness :
    (calculate_text_quality "ab??".data none).1 ≤
      (calculate_text_quality "abc?".data none).1 := by
  refine C3_corruption_monotonic_amended "abc?".data "ab??".data none (by decide)
    (by decide) (by decide) ?_ ?_
  · have h1 : text_lines "abc?".data = [['a', 'b', 'c', '?']] := by rfl
    have h2 : text_lines "ab??".data = [['a', 'b', '?', '?']] := by rfl
    have he1 : empty_line_count [['a', 'b', 'c', '?']] = 0 := by rfl
    have he2 : empty_line_count [['a', 'b', '?', '?']] = 0 := by rfl
    unfold blankPenaltyQ
    rw [h1, h2, he1, he2]
    norm_num
  · have h1 : corrupted_count "abc?".data = 1 := by rfl
    have h2 : corrupted_count "ab??".data = 2 := by rfl
    unfold corruptionRatio
    rw [h1, h2]
    norm_num

/-- One image candidate dict as consumed by `calculate_image_quality`:
`data` is `none` when the key is absent (or `None`), `width`/`height` are
`none` when those keys are absent.  (Candidates whose dimension entries hold
non-integer values are outside this model; every producer in the repository
stores integers or omits the key.) -/
structure ImgData where
  data : Option (List Nat)
  name : Option String
  width : Option Int
  height : Option Int
deriving DecidableEq

/-- Python truthiness of `img_data.get(\x27data\x27)`: a present, non-empty
byte string. -/
def img_data_truthy (d : Option (List Nat)) : Bool :=
  match d with
  | some l => !l.isEmpty
  | none => false

/-- The body of the per-candidate loop of `calculate_image_quality`: whether
the candidate counts as a successful extraction, and the diagnostics logged
for it.  The source wraps the body in `try/except`; in this typed model no
step of the body can raise, so the `except` branch is unreachable and not
modelled. -/
def process_image_candidate (i : Nat) (img : ImgData) : Bool × List ErrorRecord :=
  if img_data_truthy img.data then
    (true,
      if img.width.getD 0 < 50 ∨ img.height.getD 0 < 50 then
        [log_extraction_error current_page_number_default "image_extraction" "low"
          ("Image " ++ toString (i + 1) ++ " de très petite taille")
          (some [("width", img.width.map (fun v => (v : ℚ))),
                 ("height", img.height.map (fun v => (v : ℚ)))])
          none none
          (some "L\u0027image pourrait être de mauvaise qualité ou corrompue")]
      else [])
  else
    (false,
      [log_extraction_error current_page_number_default "image_extraction" "medium"
        ("Échec d\u0027extraction de l\u0027image " ++ toString (i + 1))
        (some [("image_index", some (i : ℚ))])
        none none none])

/-- `DocumentProcessor.calculate_image_quality`.  The guard
`total_images_detected and total_images_detected > 0` is Python truthiness:
`none` and `some 0` are falsy.  In the non-empty branch the trailing
`return 100` of the source is unreachable (the list length is positive) and
the score is `successful/len × 100`. -/
def calculate_image_quality (images_data : List ImgData)
    (total_images_detected : Option Nat) : ℚ × List ErrorRecord :=
  if images_data = [] then
    match total_images_detected with
    | some n =>
      if 0 < n then
        (0, [log_extraction_error current_page_number_default "image_extraction" "high"
          ("Aucune image extraite alors que " ++ toString n ++ " ont été détectées")
          (some [("detected", some (n : ℚ)), ("extracted", some 0)])
          none none none])
      else (100, [])
    | none => (100, [])
  else
    let processed := (images_data.enum).map (fun p => process_image_candidate p.1 p.2)
    let successful_extractions := (processed.filter (fun p => p.1)).length
    ((successful_extractions : ℚ) / (images_data.length : ℚ) * 100,
      (processed.map (fun p => p.2)).flatten)

/-- The two-suggestion auto-derived fix for `image_extraction` records. -/
def image_extraction_auto_fix : String :=
  "Augmenter la résolution DPI pour l\u0027extraction; Utiliser un algorithme d\u0027amélioration d\u0027image"

/-- C4: an empty candidate list scores 100 with no diagnostic when
`totalDetected` is absent or 0, and scores 0 with exactly one high
`image_extraction` diagnostic when `totalDetected > 0`; three candidates of
which two carry non-empty data and one carries none score `200/3` with
exactly one `medium` `image_extraction` diagnostic. -/
theorem C4_image_quality_cases :
    calculate_image_quality [] none = (100, []) ∧
    calculate_image_quality [] (some 0) = (100, []) ∧
    (∀ n : Nat, 0 < n →
      calculate_image_quality [] (some n) =
        (0, [{ error_type := "image_extraction", severity := "high",
               message := "Aucune image extraite alors que " ++ toString n ++
                 " ont été détectées",
               details := some [("detected", some (n : ℚ)), ("extracted", some 0)],
               page_number := 1, element_type := none,
               suggested_fix := image_extraction_auto_fix }])) ∧
    calculate_image_quality
        [⟨some [1], none, some 100, some 100⟩,
         ⟨some [1], none, some 100, some 100⟩,
         ⟨none, none, some 100, some 100⟩] (some 3) =
      (200 / 3,
       [{ error_type := "image_extraction", severity := "medium",
          message := "Échec d\u0027extraction de l\u0027image 3",
          details := some [("image_index", some 2)],
          page_number := 1, element_type := none,
          suggested_fix := image_extraction_auto_fix }]) := by
  refine ⟨rfl, rfl, ?_, ?_⟩
  · intro n hn
    have hstep : calculate_image_quality [] (some n) =
        if 0 < n then
          (0, [log_extraction_error current_page_number_default "image_extraction"
            "high"
            ("Aucune image extraite alors que " ++ toString n ++ " ont été détectées")
            (some [("detected", some (n : ℚ)), ("extracted", some 0)])
            none none none])
        else (100, []) := rfl
    rw [hstep, if_pos hn]
    rfl
  · refine Prod.ext ?_ ?_
    · have hfst : (calculate_image_quality
          [⟨some [1], none, some 100, some 100⟩,
           ⟨some [1], none, some 100, some 100⟩,
           ⟨none, none, some 100, some 100⟩] (some 3)).1 =
          ((2 : ℕ) : ℚ) / ((3 : ℕ) : ℚ) * 100 := rfl
      rw [hfst]
      norm_num
    · rfl

/-- Witness for C4 at a concrete positive detection count. -/
theorem C4_image_quality_cases_witness :
    calculate_image_quality [] (some 5) =
      (0, [{ error_type := "image_extraction", severity := "high",
             message := "Aucune image extraite alors que " ++ toString 5 ++
               " ont été détectées",
             details := some [("detected", some ((5 : ℕ) : ℚ)), ("extracted", some 0)],
             page_number := 1, element_type := none,
             suggested_fix := image_extraction_auto_fix }]) :=
  C4_image_quality_cases.2.2.1 5 (by decide)

lemma process_image_candidate_missing_dim (i : Nat) (l : List Nat)
    (nm : Option String) (w h : Option Int) (hne : l ≠ [])
    (hwh : w = none ∨ h = none) :
    process_image_candidate i ⟨some l, nm, w, h⟩ =
      (true, [log_extraction_error current_page_number_default "image_extraction"
        "low" ("Image " ++ toString (i + 1) ++ " de très petite taille")
        (some [("width", w.map (fun v => (v : ℚ))),
               ("height", h.map (fun v => (v : ℚ)))])
        none none
        (some "L\u0027image pourrait être de mauvaise qualité ou corrompue")]) := by
  rcases l with _ | ⟨x, xs⟩
  · exact absurd rfl hne
  have hstep : process_image_candidate i ⟨some (x :: xs), nm, w, h⟩ =
      (true,
        if w.getD 0 < 50 ∨ h.getD 0 < 50 then
          [log_extraction_error current_page_number_default "image_extraction"
            "low" ("Image " ++ toString (i + 1) ++ " de très petite taille")
            (some [("width", w.map (fun v => (v : ℚ))),
                   ("height", h.map (fun v => (v : ℚ)))])
            none none
            (some "L\u0027image pourrait être de mauvaise qualité ou corrompue")]
        else []) := rfl
  rcases hwh with hw | hh
  · subst hw
    rw [hstep, if_pos (Or.inl (by decide))]
  · subst hh
    rw [hstep, if_pos (Or.inr (by decide))]

lemma calculate_image_quality_singleton (img : ImgData) (tot : Option Nat)
    (b : Bool) (errs : List ErrorRecord)
    (hp : process_image_candidate 0 img = (b, errs)) :
    calculate_image_quality [img] tot =
      (((if b then 1 else 0 : ℕ) : ℚ) / ((1 : ℕ) : ℚ) * 100, errs) := by
  unfold calculate_image_quality
  rw [if_neg (List.cons_ne_nil img [])]
  simp only [List.enum, List.enumFrom, List.map, hp, List.filter, List.flatten,
    List.append_nil]
  cases b <;> simp

/-- C10: a candidate with non-empty data but a missing width or height field
still counts as a successful extraction (singleton score 100) and triggers the
low-severity "very small image" diagnostic, because the absent dimension is
read as 0, below the 50-pixel threshold. -/
theorem C10_missing_dimension_low_diagnostic :
    ∀ (l : List Nat) (nm : Option String) (w h : Option Int),
      l ≠ [] → (w = none ∨ h = none) →
      calculate_image_quality [⟨some l, nm, w, h⟩] (some 1) =
        (100, [log_extraction_error current_page_number_default "image_extraction"
          "low" "Image 1 de très petite taille"
          (some [("width", w.map (fun v => (v : ℚ))),
                 ("height", h.map (fun v => (v : ℚ)))])
          none none
          (some "L\u0027image pourrait être de mauvaise qualité ou corrompue")]) := by
  intro l nm w h hne hwh
  have hp := process_image_candidate_missing_dim 0 l nm w h hne hwh
  rw [calculate_image_quality_singleton _ _ _ _ hp]
  refine Prod.ext ?_ rfl
  norm_num

/-- Witness for C10: a one-byte candidate with width absent and height 100. -/
theorem C10_missing_dimension_low_diagnostic_witness :
    calculate_image_quality [⟨some [7], none, none, some 100⟩] (some 1) =
      (100, [log_extraction_error current_page_number_default "image_extraction"
        "low" "Image 1 de très petite taille"
        (some [("width", none), ("height", some ((100 : ℤ) : ℚ))])
        none none
        (some "L\u0027image pourrait être de mauvaise qualité ou corrompue")]) :=
  C10_missing_dimension_low_diagnostic [7] none none (some 100)
    (by decide) (Or.inl rfl)

/-- `format_info` dicts produced by the extractors. -/
structure FormatInfo where
  has_headers : Bool
  has_footers : Bool
  has_tables : Bool
  has_images : Bool
  generated_css : String
deriving DecidableEq

/-- Helper for `countOcc`: scans the text left to right; a positive `skip`
means the scanner is still inside a previously counted occurrence. -/
def countOccAux (pat : List Char) : List Char → Nat → Nat
  | [], _ => 0
  | _ :: rest, skip + 1 => countOccAux pat rest skip
  | c :: rest, 0 =>
    if pat ≠ [] ∧ List.isPrefixOf pat (c :: rest) then
      1 + countOccAux pat rest (pat.length - 1)
    else
      countOccAux pat rest 0

/-- Python `s.count(pat)` for a non-empty pattern: non-overlapping
occurrences, scanning left to right. -/
def countOcc (pat s : List Char) : Nat := countOccAux pat s 0

/-- Python `pat in s` for a non-empty pattern, which holds exactly when
`s.count(pat)` is positive. -/
def hasSubstr (pat s : List Char) : Bool := countOcc pat s != 0

/-- `DocumentProcessor.calculate_table_quality`. -/
def calculate_table_quality (content : List Char) (format_info : FormatInfo) :
    ℚ × List ErrorRecord :=
  if format_info.has_tables = false then (100, [])
  else
    if countOcc "<table>".data content + countOcc "|".data content +
        countOcc "\t".data content = 0 then
      (20, [log_extraction_error current_page_number_default "table_parsing"
        "high" "Tableaux détectés mais non extraits correctement"
        none none none
        (some "Le document contient des tableaux complexes nécessitant un traitement spécialisé")])
    else if hasSubstr "<table>".data content = true then
      if countOcc "<table>".data content ≠ countOcc "</table>".data content then
        (60, [log_extraction_error current_page_number_default "table_parsing"
          "medium" "Tableaux HTML incomplets détectés"
          (some [("incomplete_tables",
                  some ((countOcc "<table>".data content : ℚ) -
                    (countOcc "</table>".data content : ℚ)))])
          none none none])
      else (85, [])
    else (85, [])

/-- The two-suggestion auto-derived fix for `table_parsing` records. -/
def table_parsing_auto_fix : String :=
  "Appliquer un pré-traitement de détection de bordures; Utiliser un algorithme spécialisé pour tableaux complexes"

/-- C5: table quality is 100 whenever `has_tables` is false; 20 with one high
`table_parsing` diagnostic when `has_tables` is true and no indicator occurs;
60 with one medium diagnostic reporting imbalance 1 when there are three
`<table>` and two `</table>` occurrences; and 85 when indicators are present
and the open/close counts agree. -/
theorem C5_table_quality_cases :
    (∀ (content : List Char) (fi : FormatInfo), fi.has_tables = false →
      calculate_table_quality content fi = (100, [])) ∧
    (∀ (content : List Char) (fi : FormatInfo), fi.has_tables = true →
      countOcc "<table>".data content = 0 → countOcc "|".data content = 0 →
      countOcc "\t".data content = 0 →
      calculate_table_quality content fi =
        (20, [{ error_type := "table_parsing", severity := "high",
                message := "Tableaux détectés mais non extraits correctement",
                details := none, page_number := 1, element_type := none,
                suggested_fix := "Le document contient des tableaux complexes nécessitant un traitement spécialisé" }])) ∧
    (∀ (content : List Char) (fi : FormatInfo), fi.has_tables = true →
      countOcc "<table>".data content = 3 →
      countOcc "</table>".data content = 2 →
      calculate_table_quality content fi =
        (60, [{ error_type := "table_parsing", severity := "medium",
                message := "Tableaux HTML incomplets détectés",
                details := some [("incomplete_tables", some 1)],
                page_number := 1, element_type := none,
                suggested_fix := table_parsing_auto_fix }])) ∧
    (∀ (content : List Char) (fi : FormatInfo), fi.has_tables = true →
      0 < countOcc "<table>".data content + countOcc "|".data content +
          countOcc "\t".data content →
      countOcc "<table>".data content = countOcc "</table>".data content →
      calculate_table_quality content fi = (85, [])) := by
  refine ⟨?_, ?_, ?_, ?_⟩
  · intro c fi h
    rcases fi with ⟨hh, hf, ht, hi, css⟩
    simp only at h
    subst h
    rfl
  · intro c fi h h1 h2 h3
    rcases fi with ⟨hh, hf, ht, hi, css⟩
    simp only at h
    subst h
    have hstep : calculate_table_quality c ⟨hh, hf, true, hi, css⟩ =
        if countOcc "<table>".data c + countOcc "|".data c +
            countOcc "\t".data c = 0 then
          (20, [log_extraction_error current_page_number_default "table_parsing"
            "high" "Tableaux détectés mais non extraits correctement"
            none none none
            (some "Le document contient des tableaux complexes nécessitant un traitement spécialisé")])
        else if hasSubstr "<table>".data c = true then
          if countOcc "<table>".data c ≠ countOcc "</table>".data c then
            (60, [log_extraction_error current_page_number_default "table_parsing"
              "medium" "Tableaux HTML incomplets détectés"
              (some [("incomplete_tables",
                      some ((countOcc "<table>".data c : ℚ) -
                        (countOcc "</table>".data c : ℚ)))])
              none none none])
          else (85, [])
        else (85, []) := rfl
    rw [hstep, h1, h2, h3]
    rfl
  · intro c fi h h1 h2
    rcases fi with ⟨hh, hf, ht, hi, css⟩
    simp only at h
    subst h
    have hstep : calculate_table_quality c ⟨hh, hf, true, hi, css⟩ =
        if countOcc "<table>".data c + countOcc "|".data c +
            countOcc "\t".data c = 0 then
          (20, [log_extraction_error current_page_number_default "table_parsing"
            "high" "Tableaux détectés mais non extraits correctement"
            none none none
            (some "Le document contient des tableaux complexes nécessitant un traitement spécialisé")])
        else if hasSubstr "<table>".data c = true then
          if countOcc "<table>".data c ≠ countOcc "</table>".data c then
            (60, [log_extraction_error current_page_number_default "table_parsing"
              "medium" "Tableaux HTML incomplets détectés"
              (some [("incomplete_tables",
                      some ((countOcc "<table>".data c : ℚ) -
                        (countOcc "</table>".data c : ℚ)))])
              none none none])
          else (85, [])
        else (85, []) := rfl
    have hsub : hasSubstr "<table>".data c = true := by
      simp [hasSubstr, h1]
    rw [hstep, if_neg (by rw [h1]; omega), if_pos hsub, if_pos (by rw [h1, h2]; omega),
      h1, h2]
    norm_num
    rfl
  · intro c fi h hpos heq
    rcases fi with ⟨hh, hf, ht, hi, css⟩
    simp only at h
    subst h
    have hstep : calculate_table_quality c ⟨hh, hf, true, hi, css⟩ =
        if countOcc "<table>".data c + countOcc "|".data c +
            countOcc "\t".data c = 0 then
          (20, [log_extraction_error current_page_number_default "table_parsing"
            "high" "Tableaux détectés mais non extraits correctement"
            none none none
            (some "Le document contient des tableaux complexes nécessitant un traitement spécialisé")])
        else if hasSubstr "<table>".data c = true then
          if countOcc "<table>".data c ≠ countOcc "</table>".data c then
            (60, [log_extraction_error current_page_number_default "table_parsing"
              "medium" "Tableaux HTML incomplets détectés"
              (some [("incomplete_tables",
                      some ((countOcc "<table>".data c : ℚ) -
                        (countOcc "</table>".data c : ℚ)))])
              none none none])
          else (85, [])
        else (85, []) := rfl
    rw [hstep, if_neg (by omega)]
    by_cases hsub : hasSubstr "<table>".data c = true
    · rw [if_pos hsub, if_neg (by simp [heq])]
    · rw [if_neg hsub]

/-- Witness for C5: the four table-quality branches at concrete contents. -/
theorem C5_table_quality_cases_witness :
    calculate_table_quality "abc".data ⟨false, false, false, false, ""⟩ =
      (100, []) ∧
    calculate_table_quality "abc".data ⟨false, false, true, false, ""⟩ =
      (20, [{ error_type := "table_parsing", severity := "high",
              message := "Tableaux détectés mais non extraits correctement",
              details := none, page_number := 1, element_type := none,
              suggested_fix := "Le document contient des tableaux complexes nécessitant un traitement spécialisé" }]) ∧
    calculate_table_quality "<table></table><table></table><table>".data
        ⟨false, false, true, false, ""⟩ =
      (60, [{ error_type := "table_parsing", severity := "medium",
              message := "Tableaux HTML incomplets détectés",
              details := some [("incomplete_tables", some 1)],
              page_number := 1, element_type := none,
              suggested_fix := table_parsing_auto_fix }]) ∧
    calculate_table_quality "<table></table>".data
        ⟨false, false, true, false, ""⟩ = (85, []) :=
  ⟨C5_table_quality_cases.1 "abc".data ⟨false, false, false, false, ""⟩ rfl,
   C5_table_quality_cases.2.1 "abc".data ⟨false, false, true, false, ""⟩ rfl
     (by rfl) (by rfl) (by rfl),
   C5_table_quality_cases.2.2.1 "<table></table><table></table><table>".data
     ⟨false, false, true, false, ""⟩ rfl (by rfl) (by rfl),
   C5_table_quality_cases.2.2.2 "<table></table>".data
     ⟨false, false, true, false, ""⟩ rfl (by decide) (by rfl)⟩

/-- C6: the logger called with errorType `encoding` and no explicit fix
produces a record whose suggested_fix is the first two entries of the fixed
encoding remediation list joined by `"; "`. -/
theorem C6_encoding_auto_fix :
    ∀ (cp : Nat) (severity message : String)
      (details : Option (List (String × Option ℚ))) (page : Option Nat)
      (elem : Option String),
      (log_extraction_error cp "encoding" severity message details page elem
          none).suggested_fix =
        String.intercalate "; "
          (List.take 2 (apply_automatic_corrections "encoding" details)) ∧
      (log_extraction_error cp "encoding" severity message details page elem
          none).suggested_fix =
        "Ré-encoder le document avec UTF-8; Utiliser un OCR avec détection automatique d\u0027encodage" :=
  fun _ _ _ _ _ _ => ⟨rfl, rfl⟩

/-- One extractor result dict as consumed by `update_extraction_metrics`,
with the keys that method reads. -/
structure ExtractionResult where
  content : List Char
  formatted_content : List Char
  images : List ImgData
  format_info : FormatInfo
deriving DecidableEq

/-- Python `len(content.split())`: the number of maximal non-whitespace runs.
The Boolean argument records whether the scanner is inside a word. -/
def py_word_count_aux : List Char → Bool → Nat
  | [], _ => 0
  | c :: rest, inWord =>
    if c.isWhitespace then py_word_count_aux rest false
    else (if inWord then 0 else 1) + py_word_count_aux rest true

/-- `len(content.split())`. -/
def py_word_count (content : List Char) : Nat := py_word_count_aux content false

/-- `DocumentProcessor._estimate_page_count`.  Its result is stored in the
`current_page_count` attribute, which nothing in the repository reads, so it
does not feed the metrics below. -/
def estimate_page_count (content formatted_content : List Char) : Nat :=
  if hasSubstr "pdf-page".data formatted_content = true then
    countOcc "pdf-page".data formatted_content
  else if content ≠ [] then
    max 1 (py_word_count content / 500)
  else 1

/-- `DocumentProcessor.update_extraction_metrics`: one update of the
accumulator from an extraction result, including the three quality scores and
the diagnostics they append. -/
def update_extraction_metrics (m : ExtractionMetrics) (result : ExtractionResult) :
    ExtractionMetrics :=
  let content := result.content
  let formatted_content := result.formatted_content
  let images := result.images
  let format_info := result.format_info
  let total_images_detected :=
    if format_info.has_images = true then max images.length 1 else images.length
  { total_elements_detected :=
      m.total_elements_detected + 1 + total_images_detected +
        (if format_info.has_tables = true then 1 else 0)
    total_elements_extracted :=
      m.total_elements_extracted + (if content ≠ [] then 1 else 0) +
        (images.filter (fun img => img_data_truthy img.data)).length +
        (if format_info.has_tables = true ∧
            (hasSubstr "<table>".data formatted_content = true ∨
             hasSubstr "|".data formatted_content = true ∨
             hasSubstr "\t".data formatted_content = true) then 1 else 0)
    text_quality := (calculate_text_quality content none).1
    image_quality := (calculate_image_quality images (some total_images_detected)).1
    table_quality := (calculate_table_quality formatted_content format_info).1
    errors := m.errors ++ (calculate_text_quality content none).2 ++
      (calculate_image_quality images (some total_images_detected)).2 ++
      (calculate_table_quality formatted_content format_info).2 }

lemma round_half_even_le (q : ℚ) : (round_half_even q : ℚ) ≤ q + 1 / 2 := by
  unfold round_half_even
  have hfl := Int.floor_le q
  split_ifs with h1 h2 h3
  · linarith
  · push_cast
    linarith
  · linarith
  · push_cast
    linarith

lemma py_round2_le_100 (q : ℚ) (h : q ≤ 100) : py_round2 q ≤ 100 := by
  unfold py_round2
  have h1 : (round_half_even (q * 100) : ℚ) ≤ q * 100 + 1 / 2 :=
    round_half_even_le _
  have h3 : round_half_even (q * 100) ≤ 10000 := by
    by_contra hc
    push_neg at hc
    have hcz : (10001 : ℤ) ≤ round_half_even (q * 100) := by omega
    have : ((10001 : ℤ) : ℚ) ≤ (round_half_even (q * 100) : ℚ) := by
      exact_mod_cast hcz
    push_cast at this
    linarith
  have h4 : (round_half_even (q * 100) : ℚ) ≤ 10000 := by exact_mod_cast h3
  linarith

/-- C9: starting from the fresh accumulator, one update keeps
`total_elements_extracted ≤ total_elements_detected`, hence the single-run
precision (raw, and as rounded for storage) never exceeds 100. -/
theorem C9_single_update_precision_bound :
    ∀ r : ExtractionResult,
      (update_extraction_metrics fresh_metrics r).total_elements_extracted ≤
        (update_extraction_metrics fresh_metrics r).total_elements_detected ∧
      compute_precision (update_extraction_metrics fresh_metrics r) ≤ 100 ∧
      save_extraction_metrics_precision (update_extraction_metrics fresh_metrics r) ≤
        100 := by
  intro r
  have hfilter : (r.images.filter (fun img => img_data_truthy img.data)).length ≤
      r.images.length := List.length_filter_le _ _
  have himg : r.images.length ≤
      (if r.format_info.has_images = true then max r.images.length 1
       else r.images.length) := by
    split_ifs
    · exact le_max_left _ _
    · exact le_refl _
  have htab : (if r.format_info.has_tables = true ∧
        (hasSubstr "<table>".data r.formatted_content = true ∨
         hasSubstr "|".data r.formatted_content = true ∨
         hasSubstr "\t".data r.formatted_content = true) then 1 else 0) ≤
      (if r.format_info.has_tables = true then 1 else 0) := by
    by_cases ha : r.format_info.has_tables = true
    · rw [if_pos ha]
      split_ifs <;> omega
    · rw [if_neg ha, if_neg (fun hab => ha hab.1)]
  have hcont : (if r.content ≠ [] then 1 else 0) ≤ 1 := by
    split_ifs <;> omega
  have he : (update_extraction_metrics fresh_metrics r).total_elements_extracted =
      0 + (if r.content ≠ [] then 1 else 0) +
        (r.images.filter (fun img => img_data_truthy img.data)).length +
        (if r.format_info.has_tables = true ∧
            (hasSubstr "<table>".data r.formatted_content = true ∨
             hasSubstr "|".data r.formatted_content = true ∨
             hasSubstr "\t".data r.formatted_content = true) then 1 else 0) := rfl
  have hd : (update_extraction_metrics fresh_metrics r).total_elements_detected =
      0 + 1 + (if r.format_info.has_images = true then max r.images.length 1
        else r.images.length) +
        (if r.format_info.has_tables = true then 1 else 0) := rfl
  have hext : (update_extraction_metrics fresh_metrics r).total_elements_extracted ≤
      (update_extraction_metrics fresh_metrics r).total_elements_detected := by
    rw [he, hd]
    omega
  have hdpos : 0 < (update_extraction_metrics fresh_metrics r).total_elements_detected := by
    rw [hd]
    omega
  have hprec : compute_precision (update_extraction_metrics fresh_metrics r) ≤ 100 := by
    unfold compute_precision
    rw [if_pos hdpos]
    have hratio :
        ((update_extraction_metrics fresh_metrics r).total_elements_extracted : ℚ) /
          ((update_extraction_metrics fresh_metrics r).total_elements_detected : ℚ) ≤ 1 :=
      div_le_one_of_le₀ (by exact_mod_cast hext) (by positivity)
    calc ((update_extraction_metrics fresh_metrics r).total_elements_extracted : ℚ) /
          ((update_extraction_metrics fresh_metrics r).total_elements_detected : ℚ) * 100
        ≤ 1 * 100 := mul_le_mul_of_nonneg_right hratio (by norm_num)
      _ = 100 := by norm_num
  exact ⟨hext, hprec, py_round2_le_100 _ hprec⟩

/-- PIL image modes that can reach `ImageProcessor.save_image`. -/
inductive PILMode
  | one
  | L
  | LA
  | P
  | RGB
  | RGBA
  | CMYK
deriving DecidableEq

/-- Modelled from the spec: the spec phrase "images with an alpha channel".
Among the PIL modes above, `RGBA` and `LA` carry an alpha channel. -/
def PILMode.hasAlphaChannel : PILMode → Bool
  | .RGBA => true
  | .LA => true
  | _ => false

/-- A decoded PIL image.  Only the mode is modelled: the resize, thumbnail
and sharpness steps of `_optimize_image` never change the mode, and no claim
concerns pixel dimensions. -/
structure PILImage where
  mode : PILMode
deriving DecidableEq

/-- `ImageProcessor._optimize_image`: copy, conditional upscale, conditional
thumbnail and a sharpness enhancement (whose own failures are swallowed by an
inner `try/except`).  All of these preserve the PIL mode, which is the only
modelled component. -/
def optimize_image (image : PILImage) : PILImage := image

/-- Output format chosen by `save_image`. -/
inductive OutFormat
  | PNG
  | JPEG
deriving DecidableEq

/-- The arguments of one `Image.save` call: format, JPEG quality if any,
the `optimize` flag, whether the image was first composited onto a white
background, and the mode of the image handed to the encoder. -/
structure SavedEncode where
  format : OutFormat
  quality : Option Nat
  optimize : Bool
  composited_on_white : Bool
  mode : PILMode
deriving DecidableEq

/-- Result of `save_image`: either an encoded file (with the final filename)
or the original bytes passed through by the `except` clause. -/
inductive SaveResult
  | encoded (enc : SavedEncode) (filename : List Char)
  | fallback (original : List Nat) (filename : List Char)
deriving DecidableEq

/-- Result of `convert_to_web_format`: encoded bytes or the original bytes. -/
inductive WebResult
  | encoded (enc : SavedEncode)
  | original (bytes : List Nat)
deriving DecidableEq

/-- Helper for `replaceSub`; a positive `skip` means the scanner is inside an
already replaced occurrence. -/
def replaceSubAux (pat rep : List Char) : List Char → Nat → List Char
  | [], _ => []
  | _ :: rest, skip + 1 => replaceSubAux pat rep rest skip
  | c :: rest, 0 =>
    if pat ≠ [] ∧ List.isPrefixOf pat (c :: rest) then
      rep ++ replaceSubAux pat rep rest (pat.length - 1)
    else
      c :: replaceSubAux pat rep rest 0

/-- Python `s.replace(pat, rep)` for a non-empty pattern: replaces every
non-overlapping occurrence, scanning left to right. -/
def replaceSub (pat rep s : List Char) : List Char :=
  replaceSubAux pat rep s 0

/-- `ImageProcessor.save_image`.  PIL itself is the external collaborator:
`decode` models `Image.open` (`none` when decoding raises) and `encode_ok`
models whether `Image.save` succeeds for a given image and format (PIL
raises, for instance, when saving an `LA`-mode image as JPEG).  Any raise
inside the `try` block lands in the `except` clause, which returns the
original bytes under the original filename. -/
def save_image (decode : List Nat → Option PILImage)
    (encode_ok : PILImage → OutFormat → Bool)
    (image_data : List Nat) (filename : List Char) : SaveResult :=
  match decode image_data with
  | none => SaveResult.fallback image_data filename
  | some image =>
    let optimized_image := optimize_image image
    let output_format :=
      if optimized_image.mode = PILMode.RGBA then OutFormat.PNG else OutFormat.JPEG
    if output_format = OutFormat.JPEG then
      let converted :=
        if optimized_image.mode = PILMode.RGBA then
          (({ mode := PILMode.RGB } : PILImage), true)
        else (optimized_image, false)
      if encode_ok converted.1 OutFormat.JPEG then
        SaveResult.encoded
          { format := OutFormat.JPEG, quality := some 92, optimize := true,
            composited_on_white := converted.2, mode := converted.1.mode }
          (replaceSub ".png".data ".jpg".data filename)
      else SaveResult.fallback image_data filename
    else
      if encode_ok optimized_image OutFormat.PNG then
        SaveResult.encoded
          { format := OutFormat.PNG, quality := none, optimize := true,
            composited_on_white := false, mode := optimized_image.mode }
          filename
      else SaveResult.fallback image_data filename

/-- `ImageProcessor.convert_to_web_format`: normalise any mode outside
RGB/RGBA to RGB, cap dimensions (mode preserving, not modelled), apply
contrast and sharpness boosts (mode preserving, failures swallowed by an
inner `try/except`), then encode as JPEG at quality 90; on any raise the
original bytes are returned. -/
def convert_to_web_format (decode : List Nat → Option PILImage)
    (encode_ok : PILImage → OutFormat → Bool) (image_data : List Nat) :
    WebResult :=
  match decode image_data with
  | none => WebResult.original image_data
  | some image =>
    let image :=
      if image.mode ≠ PILMode.RGB ∧ image.mode ≠ PILMode.RGBA then
        ({ mode := PILMode.RGB } : PILImage)
      else image
    if encode_ok image OutFormat.JPEG then
      WebResult.encoded
        { format := OutFormat.JPEG, quality := some 90, optimize := true,
          composited_on_white := false, mode := image.mode }
    else WebResult.original image_data

/-- Decoder for the C7 counterexample: every byte string decodes to a
grayscale-plus-alpha (`LA`) image, the mode PIL yields for a grayscale PNG
with transparency. -/
def la_decode : List Nat → Option PILImage := fun _ => some { mode := PILMode.LA }

/-- An encoder collaborator for which every save call succeeds. -/
def encode_always_ok : PILImage → OutFormat → Bool := fun _ _ => true

/-- Counterexample to C7 as stated: an `LA`-mode image carries an alpha
channel, yet `save_image` selects the lossy JPEG encoding at quality 92 for
it, because the source tests `mode == \x27RGBA\x27` rather than the presence
of an alpha channel. -/
theorem C7_alpha_lossless_counterexample :
    PILMode.hasAlphaChannel PILMode.LA = true ∧
    save_image la_decode encode_always_ok [0] "img.png".data =
      SaveResult.encoded
        { format := OutFormat.JPEG, quality := some 92, optimize := true,
          composited_on_white := false, mode := PILMode.LA }
        "img.jpg".data :=
  ⟨rfl, rfl⟩

/-- C7 (amended): for every decodable input, `save_image` encodes images of
mode `RGBA` losslessly as PNG and sends every other decoded mode — including
the alpha-bearing `LA` — to the JPEG encoder at quality 92 (when the save
succeeds; otherwise the original bytes are returned).  The white-background
compositing branch requires a JPEG target for an `RGBA`-mode image, which the
format selection rules out, so no image is composited onto a white
background. -/
theorem C7_save_image_format_amended :
    ∀ (decode : List Nat → Option PILImage)
      (encode_ok : PILImage → OutFormat → Bool)
      (data : List Nat) (fn : List Char) (img : PILImage),
      decode data = some img →
      (img.mode = PILMode.RGBA → encode_ok img OutFormat.PNG = true →
        save_image decode encode_ok data fn =
          SaveResult.encoded
            { format := OutFormat.PNG, quality := none, optimize := true,
              composited_on_white := false, mode := img.mode } fn) ∧
      (img.mode ≠ PILMode.RGBA → encode_ok img OutFormat.JPEG = true →
        save_image decode encode_ok data fn =
          SaveResult.encoded
            { format := OutFormat.JPEG, quality := some 92, optimize := true,
              composited_on_white := false, mode := img.mode }
            (replaceSub ".png".data ".jpg".data fn)) := by
  intro decode encode_ok data fn img hdec
  constructor
  · intro hmode henc
    simp only [save_image, hdec, optimize_image, hmode]
    simp [henc]
  · intro hmode henc
    simp only [save_image, hdec, optimize_image]
    simp [hmode, henc]

/-- Witness for the amended C7: an RGBA decode goes to PNG under the original
name, an LA decode goes to JPEG at quality 92 under the renamed file. -/
theorem C7_save_image_format_witness :
    save_image (fun _ => some { mode := PILMode.RGBA }) encode_always_ok [0]
        "img.png".data =
      SaveResult.encoded
        { format := OutFormat.PNG, quality := none, optimize := true,
          composited_on_white := false, mode := PILMode.RGBA }
        "img.png".data ∧
    save_image la_decode encode_always_ok [0] "img.png".data =
      SaveResult.encoded
        { format := OutFormat.JPEG, quality := some 92, optimize := true,
          composited_on_white := false, mode := PILMode.LA }
        "img.jpg".data :=
  ⟨(C7_save_image_format_amended (fun _ => some { mode := PILMode.RGBA })
      encode_always_ok [0] "img.png".data { mode := PILMode.RGBA } rfl).1 rfl rfl,
   (C7_save_image_format_amended la_decode encode_always_ok [0] "img.png".data
      { mode := PILMode.LA } rfl).2 (by decide) rfl⟩

/-- The image and format that `save_image` hands to the single `Image.save`
call it attempts for a decoded image: the optimised image, saved as PNG when
its mode is RGBA and as JPEG otherwise (the RGBA-to-RGB conversion inside the
JPEG branch is unreachable, so the attempted image is always the optimised
one). -/
def save_image_encode_attempt (img : PILImage) : PILImage × OutFormat :=
  if (optimize_image img).mode = PILMode.RGBA then
    (optimize_image img, OutFormat.PNG)
  else
    (optimize_image img, OutFormat.JPEG)

/-- The image that `convert_to_web_format` hands to its JPEG `Image.save`
call: the decoded image, converted to RGB first when its mode is outside
RGB/RGBA. -/
def web_encode_attempt (img : PILImage) : PILImage :=
  if img.mode ≠ PILMode.RGB ∧ img.mode ≠ PILMode.RGBA then
    ({ mode := PILMode.RGB } : PILImage)
  else img

/-- C8: for every input byte sequence and every decoder/encoder collaborator
(partial-failure encoders included), if decoding fails, or the one `Image.save`
call that `save_image` attempts fails, `save_image` returns the original bytes
under the original filename; likewise `convert_to_web_format` returns the
original bytes verbatim when decoding or its attempted save fails.  These are
the only failure points of the two `try` blocks: every other fallible step
(sharpening, contrast) swallows its own exceptions internally. -/
theorem C8_failure_returns_original :
    ∀ (decode : List Nat → Option PILImage)
      (encode_ok : PILImage → OutFormat → Bool)
      (data : List Nat) (fn : List Char),
      (decode data = none →
        save_image decode encode_ok data fn = SaveResult.fallback data fn ∧
        convert_to_web_format decode encode_ok data = WebResult.original data) ∧
      (∀ img, decode data = some img →
        (encode_ok (save_image_encode_attempt img).1
            (save_image_encode_attempt img).2 = false →
          save_image decode encode_ok data fn = SaveResult.fallback data fn) ∧
        (encode_ok (web_encode_attempt img) OutFormat.JPEG = false →
          convert_to_web_format decode encode_ok data = WebResult.original data)) := by
  intro decode encode_ok data fn
  constructor
  · intro hdec
    constructor
    · simp [save_image, hdec]
    · simp [convert_to_web_format, hdec]
  · intro img hdec
    constructor
    · intro henc
      by_cases hm : (optimize_image img).mode = PILMode.RGBA
      · rw [save_image_encode_attempt, if_pos hm] at henc
        simp [save_image, hdec, hm, henc]
      · rw [save_image_encode_attempt, if_neg hm] at henc
        simp [save_image, hdec, hm, henc]
    · intro henc
      by_cases hm : img.mode ≠ PILMode.RGB ∧ img.mode ≠ PILMode.RGBA
      · rw [web_encode_attempt, if_pos hm] at henc
        simp [convert_to_web_format, hdec, hm, henc]
      · rw [web_encode_attempt, if_neg hm] at henc
        simp [convert_to_web_format, hdec, hm, henc]

/-- Decoder modelling a byte string PIL cannot open. -/
def decode_none : List Nat → Option PILImage := fun _ => none

/-- A PIL-like partial-failure encoder: PNG saves succeed for every mode,
JPEG saves succeed exactly for the modes the JPEG writer supports (L, RGB,
CMYK) and raise for the others, such as LA or RGBA. -/
def encode_pil_like : PILImage → OutFormat → Bool :=
  fun i f =>
    match f with
    | OutFormat.PNG => true
    | OutFormat.JPEG =>
      decide (i.mode = PILMode.L) || decide (i.mode = PILMode.RGB) ||
        decide (i.mode = PILMode.CMYK)

/-- Witness for C8: with the PIL-like partial encoder, a failing decode gives
back the original bytes, an LA image makes the attempted LA-as-JPEG save of
`save_image` fail with the original bytes returned, and an RGBA image makes
the attempted RGBA-as-JPEG save of `convert_to_web_format` fail with the
original bytes returned. -/
theorem C8_failure_returns_original_witness :
    (save_image decode_none encode_pil_like [1, 2] "a.png".data =
      SaveResult.fallback [1, 2] "a.png".data ∧
     convert_to_web_format decode_none encode_pil_like [1, 2] =
      WebResult.original [1, 2]) ∧
    save_image la_decode encode_pil_like [1, 2] "a.png".data =
      SaveResult.fallback [1, 2] "a.png".data ∧
    convert_to_web_format (fun _ => some { mode := PILMode.RGBA })
        encode_pil_like [1, 2] = WebResult.original [1, 2] :=
  ⟨(C8_failure_returns_original decode_none encode_pil_like [1, 2]
      "a.png".data).1 rfl,
   ((C8_failure_returns_original la_decode encode_pil_like [1, 2]
      "a.png".data).2 { mode := PILMode.LA } rfl).1 rfl,
   ((C8_failure_returns_original (fun _ => some { mode := PILMode.RGBA })
      encode_pil_like [1, 2] "a.png".data).2 { mode := PILMode.RGBA } rfl).2 rfl⟩
